import Mathlib

/-!
Verification of the graph_explorer_backend CRUD API (src/app.py) against its
specification. The handlers of app.py are shallowly embedded as pure
functions from a database state and a request body to a new database state
and an HTTP response. The relational schema declared via SQLAlchemy
(primary keys, the UNIQUE index on `name`, varchar length limits, the
foreign keys with ON DELETE CASCADE and the CheckConstraint `sid != tid`)
is modelled by explicit constraint checks on commit: a violated constraint
makes the commit return `none`, which the handlers surface as a 501
response with the committed state unchanged, exactly as the Python code
catches the database exception.

The external sanitizer `bleach.clean` is abstracted as a parameter
`clean : String → String`; bleach raises TypeError on non-string input,
which is modelled explicitly. Concrete instances in witnesses use the
identity function, which agrees with bleach on markup-free strings.
-/

set_option autoImplicit false

namespace GraphExplorer

/-- A JSON value as far as the handlers inspect request bodies: strings,
integers and null (other JSON shapes are not needed by the claims). -/
inductive JVal where
  | s (v : String)
  | i (v : Int)
  | null
deriving Repr, DecidableEq

/-- Row of the `node` table (`class Node(db.Model)` in app.py): integer
primary key `id`, nullable unique `name` (String(80)), nullable `color`
(String(7)). -/
structure Node where
  id : Int
  name : Option String
  color : Option String
deriving Repr, DecidableEq

/-- Row of the `edge` table (`class Edge(db.Model)` in app.py): integer
primary key `id`, foreign keys `sid` and `tid` into `node` (ondelete
CASCADE), nullable unique `name`, nullable `color`, and the
CheckConstraint `sid != tid`. -/
structure Edge where
  id : Int
  sid : Int
  tid : Int
  name : Option String
  color : Option String
deriving Repr, DecidableEq

/-- The committed contents of the database: the `node` and `edge` tables. -/
structure DBState where
  nodes : List Node
  edges : List Edge
deriving Repr, DecidableEq

/-- Python truthiness step `x or ''` applied to the result of
`request.json.get(k)`: an absent key, null, the empty string and the
integer zero are all falsy and replaced by the empty string. -/
def orEmpty : Option JVal → JVal
  | none => .s ""
  | some .null => .s ""
  | some (.s v) => .s v
  | some (.i v) => if v = 0 then .s "" else .i v

/-- `bleach.clean` applied to a JSON value: bleach raises TypeError on
non-string input, modelled as `Except.error`. -/
def cleanVal (clean : String → String) : JVal → Except String String
  | .s v => .ok (clean v)
  | .i _ => .error "TypeError"
  | .null => .error "TypeError"

/-- The field pipeline `clean(request.json.get(k) or '') or None` of
app.py: sanitize, then normalise the empty string to `none`
(Python `or None`). -/
def sanitizeField (clean : String → String) (v : Option JVal) :
    Except String (Option String) :=
  (cleanVal clean (orEmpty v)).map (fun r => if r = "" then none else some r)

/-- The PUT update idiom
`if k in request.json: obj.f = clean(request.json.get(k) or '') or None`:
the stored value `cur` is kept when the key is absent from the body. -/
def updField (clean : String → String) (cur : Option String)
    (v : Option JVal) : Except String (Option String) :=
  match v with
  | none => .ok cur
  | some _ => sanitizeField clean v

/-- `isinstance(x, int)` on an optional JSON value (absent key gives
Python None, which is not an int). -/
def isIntVal : Option JVal → Bool
  | some (.i _) => true
  | _ => false

/-- Bodies of HTTP responses: the full graph snapshot, a plain-text
message, or the empty JSON object. -/
inductive RBody where
  | graph (g : DBState)
  | text (v : String)
  | emptyObj
deriving Repr, DecidableEq

/-- An HTTP response: a body and a status code, mirroring the
`return body, status` tuples of the Flask handlers. -/
structure HResp where
  body : RBody
  status : Nat
deriving Repr, DecidableEq

/-- The 501 response of the generic exception handler wrapping every
route (the interpolated exception text is elided). -/
def exceptionResp : HResp := ⟨.text "Sorry, there was an exception", 501⟩

/-- `get_graph()` of app.py serialises every node row as
`{id, name, _color}` and every edge row as `{id, sid, tid, name, _color}`;
this projection is the identity on our row model, so the snapshot is the
database state itself. -/
def get_graph (db : DBState) : RBody := .graph db

/-- Column limit for `name` (`db.String(80)`); Postgres varchar rejects
longer values. -/
def nameLenOk : Option String → Bool
  | none => true
  | some v => decide (v.length ≤ 80)

/-- Column limit for `color` (`db.String(7)`). -/
def colorLenOk : Option String → Bool
  | none => true
  | some v => decide (v.length ≤ 7)

/-- The constraints the `node` table places on a row relative to the other
rows `others`: primary-key uniqueness, the UNIQUE index on `name` (SQL
NULLs never conflict with each other) and the varchar length limits. -/
def nodeRowOk (others : List Node) (n : Node) : Prop :=
  nameLenOk n.name = true ∧ colorLenOk n.color = true ∧
  (∀ m ∈ others, m.id ≠ n.id) ∧
  (n.name = none ∨ ∀ m ∈ others, m.name ≠ n.name)

instance (others : List Node) (n : Node) : Decidable (nodeRowOk others n) := by
  unfold nodeRowOk; infer_instance

/-- The constraints the `edge` table places on a row: the CheckConstraint
`sid != tid`, both foreign keys referencing an existing node, the varchar
length limits, primary-key uniqueness and the UNIQUE index on `name`. -/
def edgeRowOk (nodes : List Node) (others : List Edge) (e : Edge) : Prop :=
  e.sid ≠ e.tid ∧
  (∃ m ∈ nodes, m.id = e.sid) ∧ (∃ m ∈ nodes, m.id = e.tid) ∧
  nameLenOk e.name = true ∧ colorLenOk e.color = true ∧
  (∀ f ∈ others, f.id ≠ e.id) ∧
  (e.name = none ∨ ∀ f ∈ others, f.name ≠ e.name)

instance (nodes : List Node) (others : List Edge) (e : Edge) :
    Decidable (edgeRowOk nodes others e) := by
  unfold edgeRowOk; infer_instance

/-- INSERT a node row and COMMIT; `none` models the commit raising
IntegrityError/DataError, after which the committed state is unchanged. -/
def insertNode (db : DBState) (n : Node) : Option DBState :=
  if nodeRowOk db.nodes n then some ⟨db.nodes ++ [n], db.edges⟩ else none

/-- INSERT an edge row and COMMIT. -/
def insertEdge (db : DBState) (e : Edge) : Option DBState :=
  if edgeRowOk db.nodes db.edges e then some ⟨db.nodes, db.edges ++ [e]⟩
  else none

/-- UPDATE the node row whose id is `n.id` (the handlers never change a
row id); the constraint checks exclude the row being updated. -/
def updateNode (db : DBState) (n : Node) : Option DBState :=
  if nodeRowOk (db.nodes.filter (fun m => decide (m.id ≠ n.id))) n then
    some ⟨db.nodes.map (fun m => if m.id = n.id then n else m), db.edges⟩
  else none

/-- UPDATE the edge row whose id is `e.id`. -/
def updateEdge (db : DBState) (e : Edge) : Option DBState :=
  if edgeRowOk db.nodes (db.edges.filter (fun f => decide (f.id ≠ e.id))) e then
    some ⟨db.nodes, db.edges.map (fun f => if f.id = e.id then e else f)⟩
  else none

/-- DELETE a node row; the `ondelete CASCADE` foreign keys make the
database remove every edge whose `sid` or `tid` references it. -/
def deleteNodeCascade (db : DBState) (id : Int) : DBState :=
  ⟨db.nodes.filter (fun m => decide (m.id ≠ id)),
   db.edges.filter (fun e => decide (e.sid ≠ id ∧ e.tid ≠ id))⟩

/-- DELETE an edge row. -/
def deleteEdgeRow (db : DBState) (id : Int) : DBState :=
  ⟨db.nodes, db.edges.filter (fun e => decide (e.id ≠ id))⟩

/-- The JSON object of a node request body: each field is `some v` when
the key is present with value `v` and `none` when the key is absent
(`color` stands for the `_color` key). -/
structure NodeBody where
  name : Option JVal
  color : Option JVal
deriving Repr, DecidableEq

/-- The JSON object of an edge request body. -/
structure EdgeBody where
  sid : Option JVal
  tid : Option JVal
  name : Option JVal
  color : Option JVal
deriving Repr, DecidableEq

/-- Python str() of an optional string as interpolated into the duplicate
name message (None prints as the four letters None). -/
def pyStr : Option String → String
  | none => "None"
  | some v => v

/-- POST /api/v0/node (`node_post` in app.py). `freshId` stands for the
value the node id sequence generates for the INSERT. The duplicate check
`filter_by(name=name)` compares with SQL semantics: for a sanitized name
of None it matches rows whose name IS NULL. -/
def node_post (clean : String → String) (freshId : Int) (db : DBState)
    (body : NodeBody) : DBState × HResp :=
  match sanitizeField clean body.name with
  | .error _ => (db, exceptionResp)
  | .ok name =>
    match sanitizeField clean body.color with
    | .error _ => (db, exceptionResp)
    | .ok color =>
      match db.nodes.find? (fun m => decide (m.name = name)) with
      | some _ =>
        (db, ⟨.text ("Sorry, a node with the name \x27" ++ pyStr name ++
          "\x27 already exists. Please change the name and try again."), 400⟩)
      | none =>
        match insertNode db ⟨freshId, name, color⟩ with
        | some db2 => (db2, ⟨get_graph db2, 201⟩)
        | none => (db, exceptionResp)

/-- PUT /api/v0/node/, id in the path (`node_put` in app.py): partial
update when a row with the id exists, creation with the caller-supplied id
otherwise. -/
def node_put (clean : String → String) (db : DBState) (id : Int)
    (body : NodeBody) : DBState × HResp :=
  match db.nodes.find? (fun m => decide (m.id = id)) with
  | some node =>
    match updField clean node.name body.name with
    | .error _ => (db, exceptionResp)
    | .ok name2 =>
      match updField clean node.color body.color with
      | .error _ => (db, exceptionResp)
      | .ok color2 =>
        match updateNode db ⟨node.id, name2, color2⟩ with
        | some db2 => (db2, ⟨get_graph db2, 200⟩)
        | none => (db, exceptionResp)
  | none =>
    match sanitizeField clean body.name with
    | .error _ => (db, exceptionResp)
    | .ok name =>
      match sanitizeField clean body.color with
      | .error _ => (db, exceptionResp)
      | .ok color =>
        match insertNode db ⟨id, name, color⟩ with
        | some db2 => (db2, ⟨get_graph db2, 201⟩)
        | none => (db, exceptionResp)

/-- DELETE /api/v0/node/, id in the path (`node_delete` in app.py). -/
def node_delete (db : DBState) (id : Int) : DBState × HResp :=
  match db.nodes.find? (fun m => decide (m.id = id)) with
  | some _ =>
    let db2 := deleteNodeCascade db id
    (db2, ⟨get_graph db2, 200⟩)
  | none =>
    (db, ⟨.text ("There is no node with id=" ++ toString id ++
      ". Perhaps it has already been deleted?"), 404⟩)

/-- POST /api/v0/edge (`edge_post` in app.py): `sid`/`tid` are taken from
the body without any type check; a missing or non-integer value makes the
INSERT fail at the database (nullable=False or a type error), surfacing as
501. -/
def edge_post (clean : String → String) (freshId : Int) (db : DBState)
    (body : EdgeBody) : DBState × HResp :=
  match sanitizeField clean body.name with
  | .error _ => (db, exceptionResp)
  | .ok name =>
    match sanitizeField clean body.color with
    | .error _ => (db, exceptionResp)
    | .ok color =>
      match body.sid, body.tid with
      | some (.i sid), some (.i tid) =>
        match insertEdge db ⟨freshId, sid, tid, name, color⟩ with
        | some db2 => (db2, ⟨get_graph db2, 201⟩)
        | none => (db, exceptionResp)
      | _, _ => (db, exceptionResp)

/-- PUT /api/v0/edge/, id in the path (`edge_put` in app.py). In the
update branch a `sid`/`tid` key is applied only when present AND an
integer; in the create branch both must be integers, else 400. -/
def edge_put (clean : String → String) (db : DBState) (id : Int)
    (body : EdgeBody) : DBState × HResp :=
  match db.edges.find? (fun f => decide (f.id = id)) with
  | some edge =>
    let sid2 := match body.sid with | some (.i v) => v | _ => edge.sid
    let tid2 := match body.tid with | some (.i v) => v | _ => edge.tid
    match updField clean edge.name body.name with
    | .error _ => (db, exceptionResp)
    | .ok name2 =>
      match updField clean edge.color body.color with
      | .error _ => (db, exceptionResp)
      | .ok color2 =>
        match updateEdge db ⟨edge.id, sid2, tid2, name2, color2⟩ with
        | some db2 => (db2, ⟨get_graph db2, 200⟩)
        | none => (db, exceptionResp)
  | none =>
    match body.sid, body.tid with
    | some (.i sid), some (.i tid) =>
      match sanitizeField clean body.name with
      | .error _ => (db, exceptionResp)
      | .ok name =>
        match sanitizeField clean body.color with
        | .error _ => (db, exceptionResp)
        | .ok color =>
          match insertEdge db ⟨id, sid, tid, name, color⟩ with
          | some db2 => (db2, ⟨get_graph db2, 201⟩)
          | none => (db, exceptionResp)
    | _, _ => (db, ⟨.text "Sorry, the sid and tid params must be integers.", 400⟩)

/-- DELETE /api/v0/edge/, id in the path (`edge_delete` in app.py). -/
def edge_delete (db : DBState) (id : Int) : DBState × HResp :=
  match db.edges.find? (fun f => decide (f.id = id)) with
  | some _ =>
    let db2 := deleteEdgeRow db id
    (db2, ⟨get_graph db2, 200⟩)
  | none =>
    (db, ⟨.text ("There is no edge with id=" ++ toString id ++
      ". Perhaps it has already been deleted?"), 404⟩)

/-- OPTIONS /api/v0/ routes (`api_cors_preflight` in app.py). The view
only returns a value for the nouns node and edge; for any other noun it
falls off the end of the function, i.e. returns Python None, and no HTTP
response is produced (Flask raises an internal error). -/
def api_cors_preflight (noun : String) (id : Int) : Option HResp :=
  if noun = "node" ∨ noun = "edge" then some ⟨.emptyObj, 200⟩ else none

/-- The no-self-loop invariant of the spec: no stored edge has
`sid = tid`. -/
def edgesOk (db : DBState) : Prop := ∀ e ∈ db.edges, e.sid ≠ e.tid

instance (db : DBState) : Decidable (edgesOk db) := by
  unfold edgesOk; infer_instance

/-- The sanitizer instance used by concrete witnesses: the identity
function, which agrees with bleach.clean on markup-free strings. -/
def idClean : String → String := fun v => v

/-- Fixture: one node (id 1, name a). -/
def dbA : DBState := ⟨[⟨1, some "a", none⟩], []⟩

/-- Fixture: two unnamed nodes 1 and 2 and the edge 1 → 2. -/
def dbE : DBState := ⟨[⟨1, none, none⟩, ⟨2, none, none⟩], [⟨1, 1, 2, none, none⟩]⟩

/-- Fixture: one node with absent name. -/
def dbN : DBState := ⟨[⟨1, none, none⟩], []⟩


theorem find?_key_some {α : Type} (key : α → Int) {idv : Int}
    {l : List α} {x : α}
    (h : l.find? (fun m => decide (key m = idv)) = some x) : key x = idv := by
  have := List.find?_some h
  simpa using this

theorem find?_update {α : Type} (key : α → Int) (idv : Int) (y : α)
    (hy : key y = idv) :
    ∀ (l : List α) (x : α), l.find? (fun m => decide (key m = idv)) = some x →
    (l.map (fun m => if key m = key y then y else m)).find?
      (fun m => decide (key m = idv)) = some y := by
  intro l
  induction l with
  | nil => intro x h; simp at h
  | cons a t ih =>
    intro x h
    rw [List.map_cons]
    by_cases ha : key a = idv
    · simp [List.find?_cons, hy, ha]
    · have hne : ¬ (key a = key y) := by rw [hy]; exact ha
      simp only [if_neg hne]
      simp only [List.find?_cons] at h ⊢
      rw [decide_eq_false ha] at h ⊢
      exact ih x h

theorem insertNode_eq {db : DBState} {n : Node} {db2 : DBState}
    (h : insertNode db n = some db2) : db2 = ⟨db.nodes ++ [n], db.edges⟩ := by
  unfold insertNode at h
  split at h
  · exact (Option.some.injEq _ _ ▸ h).symm
  · exact Option.noConfusion h

theorem insertEdge_eq {db : DBState} {e : Edge} {db2 : DBState}
    (h : insertEdge db e = some db2) :
    db2 = ⟨db.nodes, db.edges ++ [e]⟩ ∧ edgeRowOk db.nodes db.edges e := by
  unfold insertEdge at h
  split at h
  · next hok => exact ⟨(Option.some.injEq _ _ ▸ h).symm, hok⟩
  · exact Option.noConfusion h

theorem updateNode_edges {db : DBState} {n : Node} {db2 : DBState}
    (h : updateNode db n = some db2) : db2.edges = db.edges := by
  unfold updateNode at h
  split at h
  · cases h; rfl
  · exact Option.noConfusion h

theorem updateEdge_eq {db : DBState} {e : Edge} {db2 : DBState}
    (h : updateEdge db e = some db2) :
    db2 = ⟨db.nodes, db.edges.map (fun f => if f.id = e.id then e else f)⟩ ∧
    edgeRowOk db.nodes (db.edges.filter (fun f => decide (f.id ≠ e.id))) e := by
  unfold updateEdge at h
  split at h
  · next hok => exact ⟨(Option.some.injEq _ _ ▸ h).symm, hok⟩
  · exact Option.noConfusion h


theorem edgesOk_insertEdge {db db2 : DBState} {e : Edge} (hdb : edgesOk db)
    (h : insertEdge db e = some db2) : edgesOk db2 := by
  obtain ⟨heq, hok⟩ := insertEdge_eq h
  subst heq
  intro f hf
  simp only [List.mem_append, List.mem_singleton] at hf
  rcases hf with hf | rfl
  · exact hdb f hf
  · exact hok.1

theorem edgesOk_updateEdge {db db2 : DBState} {e : Edge} (hdb : edgesOk db)
    (h : updateEdge db e = some db2) : edgesOk db2 := by
  obtain ⟨heq, hok⟩ := updateEdge_eq h
  subst heq
  intro f hf
  simp only [List.mem_map] at hf
  obtain ⟨g, hg, hfg⟩ := hf
  by_cases hid : g.id = e.id
  · rw [if_pos hid] at hfg; subst hfg; exact hok.1
  · rw [if_neg hid] at hfg; subst hfg; exact hdb g hg

theorem edgesOk_insertNode {db db2 : DBState} {n : Node} (hdb : edgesOk db)
    (h : insertNode db n = some db2) : edgesOk db2 := by
  have heq := insertNode_eq h
  subst heq
  exact hdb

theorem edgesOk_updateNode {db db2 : DBState} {n : Node} (hdb : edgesOk db)
    (h : updateNode db n = some db2) : edgesOk db2 := by
  have he := updateNode_edges h
  intro f hf
  rw [he] at hf
  exact hdb f hf

theorem insertEdge_self_loop {db : DBState} {e : Edge} (h : e.sid = e.tid) :
    insertEdge db e = none := by
  unfold insertEdge
  rw [if_neg]
  intro hok
  exact hok.1 h

/-- C5: no stored edge ever has `sid = tid`: an attempted POST or PUT
creation of a self-loop hits the CheckConstraint at commit and is rejected
with the 501 exception response, the stored state unchanged; moreover the
no-self-loop invariant is preserved by every mutating handler. -/
theorem C5_no_self_loops :
    ∀ (clean : String → String) (fid : Int) (db : DBState) (idv : Int)
      (nb : NodeBody) (eb : EdgeBody) (v : Int),
    (eb.sid = some (.i v) → eb.tid = some (.i v) →
      edge_post clean fid db eb = (db, exceptionResp)) ∧
    (eb.sid = some (.i v) → eb.tid = some (.i v) →
      db.edges.find? (fun f => decide (f.id = idv)) = none →
      edge_put clean db idv eb = (db, exceptionResp)) ∧
    (edgesOk db →
      edgesOk (node_post clean fid db nb).1 ∧
      edgesOk (node_put clean db idv nb).1 ∧
      edgesOk (node_delete db idv).1 ∧
      edgesOk (edge_post clean fid db eb).1 ∧
      edgesOk (edge_put clean db idv eb).1 ∧
      edgesOk (edge_delete db idv).1) := by
  intro clean fid db idv nb eb v
  refine ⟨?_, ?_, ?_⟩
  · intro hs ht
    unfold edge_post
    split
    · rfl
    · split
      · rfl
      · rw [hs, ht]
        dsimp only
        rw [insertEdge_self_loop rfl]
  · intro hs ht hfind
    unfold edge_put
    rw [hfind]
    dsimp only
    rw [hs, ht]
    dsimp only
    split
    · rfl
    · split
      · rfl
      · rw [insertEdge_self_loop rfl]
  · intro hdb
    refine ⟨?_, ?_, ?_, ?_, ?_, ?_⟩
    · unfold node_post
      split
      · exact hdb
      · split
        · exact hdb
        · split
          · exact hdb
          · split
            · next db2 hi => exact edgesOk_insertNode hdb hi
            · exact hdb
    · unfold node_put
      split
      · split
        · exact hdb
        · split
          · exact hdb
          · split
            · next db2 hu => exact edgesOk_updateNode hdb hu
            · exact hdb
      · split
        · exact hdb
        · split
          · exact hdb
          · split
            · next db2 hi => exact edgesOk_insertNode hdb hi
            · exact hdb
    · unfold node_delete
      split
      · intro f hf2
        exact hdb f (List.mem_of_mem_filter hf2)
      · exact hdb
    · unfold edge_post
      split
      · exact hdb
      · split
        · exact hdb
        · split
          · split
            · next db2 hi => exact edgesOk_insertEdge hdb hi
            · exact hdb
          · exact hdb
    · unfold edge_put
      split
      · dsimp only
        split
        · exact hdb
        · split
          · exact hdb
          · split
            · next db2 hu => exact edgesOk_updateEdge hdb hu
            · exact hdb
      · split
        · split
          · exact hdb
          · split
            · exact hdb
            · split
              · next db2 hi => exact edgesOk_insertEdge hdb hi
              · exact hdb
        · exact hdb
    · unfold edge_delete
      split
      · intro f hf2
        exact hdb f (List.mem_of_mem_filter hf2)
      · exact hdb


/-- C3: deleting an existing node returns 200, removes that node, cascades
to every edge whose `sid` or `tid` is that id, and removes nothing else. -/
theorem C3_delete_cascades :
    ∀ (db : DBState) (idv : Int),
    (db.nodes.find? (fun m => decide (m.id = idv))).isSome →
    (node_delete db idv).2.status = 200 ∧
    (∀ m ∈ (node_delete db idv).1.nodes, m.id ≠ idv) ∧
    (∀ e ∈ (node_delete db idv).1.edges, e.sid ≠ idv ∧ e.tid ≠ idv) ∧
    (∀ m ∈ db.nodes, m.id ≠ idv → m ∈ (node_delete db idv).1.nodes) ∧
    (∀ e ∈ db.edges, e.sid ≠ idv → e.tid ≠ idv → e ∈ (node_delete db idv).1.edges) ∧
    (∀ m ∈ (node_delete db idv).1.nodes, m ∈ db.nodes) ∧
    (∀ e ∈ (node_delete db idv).1.edges, e ∈ db.edges) := by
  intro db idv h
  rw [Option.isSome_iff_exists] at h
  obtain ⟨a, ha⟩ := h
  unfold node_delete deleteNodeCascade
  rw [ha]
  dsimp only
  refine ⟨rfl, ?_, ?_, ?_, ?_, ?_, ?_⟩
  · intro m hm
    exact (of_decide_eq_true (List.mem_filter.mp hm).2)
  · intro e he
    exact (of_decide_eq_true (List.mem_filter.mp he).2)
  · intro m hm hne
    exact List.mem_filter.mpr ⟨hm, decide_eq_true hne⟩
  · intro e he hs ht
    exact List.mem_filter.mpr ⟨he, decide_eq_true ⟨hs, ht⟩⟩
  · intro m hm
    exact (List.mem_filter.mp hm).1
  · intro e he
    exact (List.mem_filter.mp he).1

/-- C9: for the generic OPTIONS routes the view function returns the empty
object with 200 for the nouns node and edge, but produces no response at
all (Python None) for any other noun — there is no 404 branch. -/
theorem C9_preflight_no_unsupported_noun_branch :
    api_cors_preflight "graph" 1 = none ∧
    api_cors_preflight "unknown" 7 = none ∧
    api_cors_preflight "node" 1 = some ⟨.emptyObj, 200⟩ ∧
    api_cors_preflight "edge" 2 = some ⟨.emptyObj, 200⟩ := by
  refine ⟨?_, ?_, ?_, ?_⟩ <;> decide


theorem updateNode_eq {db : DBState} {n : Node} {db2 : DBState}
    (h : updateNode db n = some db2) :
    db2 = ⟨db.nodes.map (fun m => if m.id = n.id then n else m), db.edges⟩ := by
  unfold updateNode at h
  split at h
  · exact (Option.some.injEq _ _ ▸ h).symm
  · exact Option.noConfusion h

/-- C2: a PUT update of an existing node or edge changes only the fields
whose keys are present in the request body; every omitted field keeps its
stored value (also when the commit fails and nothing changes at all). -/
theorem C2_put_preserves_omitted_fields :
    ∀ (clean : String → String) (db : DBState) (idv : Int)
      (nb : NodeBody) (eb : EdgeBody) (n : Node) (e : Edge),
    (db.nodes.find? (fun m => decide (m.id = idv)) = some n →
      ∃ n2, (node_put clean db idv nb).1.nodes.find?
          (fun m => decide (m.id = idv)) = some n2 ∧
        (nb.name = none → n2.name = n.name) ∧
        (nb.color = none → n2.color = n.color)) ∧
    (db.edges.find? (fun f => decide (f.id = idv)) = some e →
      ∃ e2, (edge_put clean db idv eb).1.edges.find?
          (fun f => decide (f.id = idv)) = some e2 ∧
        (eb.sid = none → e2.sid = e.sid) ∧
        (eb.tid = none → e2.tid = e.tid) ∧
        (eb.name = none → e2.name = e.name) ∧
        (eb.color = none → e2.color = e.color)) := by
  intro clean db idv nb eb n e
  constructor
  · intro hfind
    have hid : n.id = idv := find?_key_some Node.id hfind
    unfold node_put
    rw [hfind]
    dsimp only
    split
    · exact ⟨n, hfind, fun _ => rfl, fun _ => rfl⟩
    · next name2 hname =>
      split
      · exact ⟨n, hfind, fun _ => rfl, fun _ => rfl⟩
      · next color2 hcolor =>
        split
        · next db2 hupd =>
          have heq := updateNode_eq hupd
          subst heq
          refine ⟨⟨n.id, name2, color2⟩, ?_, ?_, ?_⟩
          · exact find?_update Node.id idv ⟨n.id, name2, color2⟩ hid db.nodes n hfind
          · intro hnone
            rw [hnone] at hname
            simp only [updField, Except.ok.injEq] at hname
            exact hname.symm
          · intro hnone
            rw [hnone] at hcolor
            simp only [updField, Except.ok.injEq] at hcolor
            exact hcolor.symm
        · exact ⟨n, hfind, fun _ => rfl, fun _ => rfl⟩
  · intro hfind
    have hid : e.id = idv := find?_key_some Edge.id hfind
    unfold edge_put
    rw [hfind]
    dsimp only
    split
    · exact ⟨e, hfind, fun _ => rfl, fun _ => rfl, fun _ => rfl, fun _ => rfl⟩
    · next name2 hname =>
      split
      · exact ⟨e, hfind, fun _ => rfl, fun _ => rfl, fun _ => rfl, fun _ => rfl⟩
      · next color2 hcolor =>
        split
        · next db2 hupd =>
          obtain ⟨heq, hok⟩ := updateEdge_eq hupd
          subst heq
          refine ⟨⟨e.id,
            match eb.sid with | some (.i w) => w | _ => e.sid,
            match eb.tid with | some (.i w) => w | _ => e.tid,
            name2, color2⟩, ?_, ?_, ?_, ?_, ?_⟩
          · exact find?_update Edge.id idv ⟨e.id,
              match eb.sid with | some (.i w) => w | _ => e.sid,
              match eb.tid with | some (.i w) => w | _ => e.tid,
              name2, color2⟩ hid db.edges e hfind
          · intro hnone
            rw [hnone]
          · intro hnone
            rw [hnone]
          · intro hnone
            rw [hnone] at hname
            simp only [updField, Except.ok.injEq] at hname
            exact hname.symm
          · intro hnone
            rw [hnone] at hcolor
            simp only [updField, Except.ok.injEq] at hcolor
            exact hcolor.symm
        · exact ⟨e, hfind, fun _ => rfl, fun _ => rfl, fun _ => rfl, fun _ => rfl⟩


theorem node_post_dup {clean : String → String} {fid : Int} {db : DBState}
    {body : NodeBody} {nm : Option String}
    (hname : sanitizeField clean body.name = .ok nm)
    (hcolor : ∃ c, sanitizeField clean body.color = .ok c)
    (hdup : ∃ m ∈ db.nodes, m.name = nm) :
    (node_post clean fid db body).1 = db ∧
    (node_post clean fid db body).2.status = 400 := by
  obtain ⟨c, hc⟩ := hcolor
  unfold node_post
  rw [hname]
  dsimp only
  rw [hc]
  dsimp only
  have h2 : (db.nodes.find? (fun m => decide (m.name = nm))).isSome := by
    rw [List.find?_isSome]
    obtain ⟨m, hm, hx⟩ := hdup
    exact ⟨m, hm, by simpa using hx⟩
  rw [Option.isSome_iff_exists] at h2
  obtain ⟨m2, hm2⟩ := h2
  rw [hm2]
  exact ⟨rfl, rfl⟩

/-- C1 counterexample: with one stored node (id 1, name a), PUT to the
fresh id 2 with body name a does not create a node and does not return
201: the UNIQUE constraint on name aborts the insert and the handler
answers 501. -/
theorem C1_counterexample :
    (node_put (fun v => v) ⟨[⟨1, some "a", none⟩], []⟩ 2
        ⟨some (.s "a"), none⟩).2.status ≠ 201 ∧
    (node_put (fun v => v) ⟨[⟨1, some "a", none⟩], []⟩ 2
        ⟨some (.s "a"), none⟩).2.status = 501 ∧
    (∀ m ∈ (node_put (fun v => v) ⟨[⟨1, some "a", none⟩], []⟩ 2
        ⟨some (.s "a"), none⟩).1.nodes, m.id ≠ 2) := by
  refine ⟨?_, ?_, ?_⟩ <;> decide

/-- C1 (amended): node PUT to an existing id returns 200 with the graph
snapshot, and to an absent id creates a node with exactly the
caller-supplied id and returns 201 with the snapshot — provided the
request does not fail with the 501 exception response (sanitizer type
error or database constraint violation). -/
theorem C1_node_put_upsert :
    ∀ (clean : String → String) (db : DBState) (idv : Int) (body : NodeBody),
    ((db.nodes.find? (fun m => decide (m.id = idv))).isSome →
      (node_put clean db idv body).2.status ≠ 501 →
      (node_put clean db idv body).2.status = 200 ∧
      (node_put clean db idv body).2.body =
        get_graph (node_put clean db idv body).1) ∧
    (db.nodes.find? (fun m => decide (m.id = idv)) = none →
      (node_put clean db idv body).2.status ≠ 501 →
      (node_put clean db idv body).2.status = 201 ∧
      (node_put clean db idv body).2.body =
        get_graph (node_put clean db idv body).1 ∧
      ∃ m ∈ (node_put clean db idv body).1.nodes, m.id = idv) := by
  intro clean db idv body
  constructor
  · intro hsome h501
    rw [Option.isSome_iff_exists] at hsome
    obtain ⟨a, ha⟩ := hsome
    unfold node_put at h501 ⊢
    rw [ha] at h501 ⊢
    dsimp only at h501 ⊢
    revert h501
    split
    · intro h501; exact absurd rfl h501
    · split
      · intro h501; exact absurd rfl h501
      · split
        · intro _; exact ⟨rfl, rfl⟩
        · intro h501; exact absurd rfl h501
  · intro hnone h501
    unfold node_put at h501 ⊢
    rw [hnone] at h501 ⊢
    dsimp only at h501 ⊢
    revert h501
    split
    · intro h501; exact absurd rfl h501
    · split
      · intro h501; exact absurd rfl h501
      · split
        · next db2 hi =>
          intro _
          have heq := insertNode_eq hi
          subst heq
          exact ⟨rfl, rfl, _,
            List.mem_append_right _ (List.mem_singleton_self _), rfl⟩
        · intro h501; exact absurd rfl h501

/-- C4 counterexample: a POST whose sanitized name equals an existing
node name but whose color field holds a non-string JSON value (here the
integer 5) makes bleach raise TypeError before the duplicate check, so
the response is 501, not 400. -/
theorem C4_counterexample :
    sanitizeField (fun v => v) (some (JVal.s "a")) = Except.ok (some "a") ∧
    (∃ m ∈ ([⟨1, some "a", none⟩] : List Node), m.name = some "a") ∧
    (node_post (fun v => v) 2 ⟨[⟨1, some "a", none⟩], []⟩
        ⟨some (.s "a"), some (.i 5)⟩).2.status ≠ 400 ∧
    (node_post (fun v => v) 2 ⟨[⟨1, some "a", none⟩], []⟩
        ⟨some (.s "a"), some (.i 5)⟩).2.status = 501 := by
  refine ⟨rfl, ?_, ?_, ?_⟩ <;> decide

/-- C4 (amended): a node POST whose sanitized name equals the name of a
stored node is answered 400 with the stored nodes unchanged, provided the
name and color fields sanitize without a type error (a non-string color
value instead gives 501, also leaving the nodes unchanged). -/
theorem C4_duplicate_name_conflict :
    ∀ (clean : String → String) (fid : Int) (db : DBState) (body : NodeBody)
      (nm : Option String),
    sanitizeField clean body.name = .ok nm →
    (∃ c, sanitizeField clean body.color = .ok c) →
    (∃ m ∈ db.nodes, m.name = nm) →
    (node_post clean fid db body).1 = db ∧
    (node_post clean fid db body).2.status = 400 := by
  intro clean fid db body nm hname hcolor hdup
  exact node_post_dup hname hcolor hdup


/-- C6 counterexample: on an empty database, edge PUT to id 1 with
integer sid 1 and tid 2 does not create an edge and does not return 201:
the foreign keys reference no existing node, the INSERT is rejected and
the handler answers 501. -/
theorem C6_counterexample :
    (edge_put (fun v => v) ⟨[], []⟩ 1
        ⟨some (.i 1), some (.i 2), none, none⟩).2.status ≠ 201 ∧
    (edge_put (fun v => v) ⟨[], []⟩ 1
        ⟨some (.i 1), some (.i 2), none, none⟩).2.status = 501 ∧
    (edge_put (fun v => v) ⟨[], []⟩ 1
        ⟨some (.i 1), some (.i 2), none, none⟩).1.edges = [] := by
  refine ⟨?_, ?_, ?_⟩ <;> decide

/-- C6 (amended): in the create branch of edge PUT, a missing or
non-integer sid or tid gives 400 and leaves the state unchanged; when
both are integers, either a database constraint or sanitizer failure
gives 501 with the state unchanged, or an edge with exactly the
caller-supplied id, sid and tid is created and 201 returned. -/
theorem C6_edge_put_create :
    ∀ (clean : String → String) (db : DBState) (idv : Int) (body : EdgeBody),
    db.edges.find? (fun f => decide (f.id = idv)) = none →
    ((isIntVal body.sid = false ∨ isIntVal body.tid = false) →
      edge_put clean db idv body =
        (db, ⟨.text "Sorry, the sid and tid params must be integers.", 400⟩)) ∧
    (∀ s t : Int, body.sid = some (.i s) → body.tid = some (.i t) →
      ((edge_put clean db idv body).2.status = 501 →
        (edge_put clean db idv body).1 = db) ∧
      ((edge_put clean db idv body).2.status ≠ 501 →
        (edge_put clean db idv body).2.status = 201 ∧
        ∃ e2 ∈ (edge_put clean db idv body).1.edges,
          e2.id = idv ∧ e2.sid = s ∧ e2.tid = t)) := by
  intro clean db idv body hfind
  constructor
  · intro hbad
    unfold edge_put
    rw [hfind]
    dsimp only
    rcases hs : body.sid with _ | v1
    · rfl
    · cases v1 with
      | s w1 => rfl
      | null => rfl
      | i w1 =>
        rcases ht : body.tid with _ | v2
        · rfl
        · cases v2 with
          | s w2 => rfl
          | null => rfl
          | i w2 =>
            rw [hs, ht] at hbad
            simp [isIntVal] at hbad
  · intro s t hs ht
    unfold edge_put
    rw [hfind]
    dsimp only
    rw [hs, ht]
    dsimp only
    split
    · exact ⟨fun _ => rfl, fun h => absurd rfl h⟩
    · next name hnm =>
      split
      · exact ⟨fun _ => rfl, fun h => absurd rfl h⟩
      · next color hc =>
        split
        · next db2 hi =>
          have heq := (insertEdge_eq hi).1
          subst heq
          constructor
          · intro h
            simp at h
          · intro h
            exact ⟨rfl, _,
              List.mem_append_right _ (List.mem_singleton_self _), rfl, rfl, rfl⟩
        · exact ⟨fun _ => rfl, fun h => absurd rfl h⟩

/-- C7 counterexample: updating an existing edge with an integer sid that
references no stored node is not applied with 200: the foreign-key
constraint aborts the UPDATE and the handler answers 501 with the edge
unchanged. -/
theorem C7_counterexample :
    (edge_put (fun v => v)
        ⟨[⟨1, none, none⟩, ⟨2, none, none⟩], [⟨1, 1, 2, none, none⟩]⟩ 1
        ⟨some (.i 99), none, none, none⟩).2.status ≠ 200 ∧
    (edge_put (fun v => v)
        ⟨[⟨1, none, none⟩, ⟨2, none, none⟩], [⟨1, 1, 2, none, none⟩]⟩ 1
        ⟨some (.i 99), none, none, none⟩).2.status = 501 ∧
    (edge_put (fun v => v)
        ⟨[⟨1, none, none⟩, ⟨2, none, none⟩], [⟨1, 1, 2, none, none⟩]⟩ 1
        ⟨some (.i 99), none, none, none⟩).1.edges = [⟨1, 1, 2, none, none⟩] := by
  refine ⟨?_, ?_, ?_⟩ <;> decide

/-- C7 (amended): in the update branch of edge PUT, a non-integer sid or
tid value is ignored (the stored value is kept) and an integer value is
applied; when the resulting row commits, the response is 200 with those
values stored, and otherwise the response is 501 with the state
unchanged. -/
theorem C7_edge_put_update :
    ∀ (clean : String → String) (db : DBState) (idv : Int) (body : EdgeBody)
      (e : Edge),
    db.edges.find? (fun f => decide (f.id = idv)) = some e →
    ((edge_put clean db idv body).2.status = 200 →
      ∃ e2, (edge_put clean db idv body).1.edges.find?
          (fun f => decide (f.id = idv)) = some e2 ∧
        e2.sid = (match body.sid with | some (.i w) => w | _ => e.sid) ∧
        e2.tid = (match body.tid with | some (.i w) => w | _ => e.tid)) ∧
    ((edge_put clean db idv body).2.status ≠ 200 →
      (edge_put clean db idv body).2.status = 501 ∧
      (edge_put clean db idv body).1 = db) := by
  intro clean db idv body e hfind
  have hid : e.id = idv := find?_key_some Edge.id hfind
  unfold edge_put
  rw [hfind]
  dsimp only
  split
  · exact ⟨fun h => absurd h (by simp [exceptionResp]), fun _ => ⟨rfl, rfl⟩⟩
  · next name2 hname =>
    split
    · exact ⟨fun h => absurd h (by simp [exceptionResp]), fun _ => ⟨rfl, rfl⟩⟩
    · next color2 hcolor =>
      split
      · next db2 hupd =>
        obtain ⟨heq, hok⟩ := updateEdge_eq hupd
        subst heq
        refine ⟨fun _ => ⟨⟨e.id,
          match body.sid with | some (.i w) => w | _ => e.sid,
          match body.tid with | some (.i w) => w | _ => e.tid,
          name2, color2⟩, ?_, rfl, rfl⟩, fun h => absurd rfl h⟩
        exact find?_update Edge.id idv ⟨e.id,
          match body.sid with | some (.i w) => w | _ => e.sid,
          match body.tid with | some (.i w) => w | _ => e.tid,
          name2, color2⟩ hid db.edges e hfind
      · exact ⟨fun h => absurd h (by simp [exceptionResp]), fun _ => ⟨rfl, rfl⟩⟩

/-- C8 counterexample: with one stored node whose name is absent (NULL),
a POST with no name is rejected 400 as a duplicate: the existence check
filter_by(name=None) matches rows whose name IS NULL. -/
theorem C8_counterexample :
    sanitizeField (fun v => v) (none : Option JVal) = Except.ok none ∧
    (node_post (fun v => v) 2 ⟨[⟨1, none, none⟩], []⟩
        ⟨none, none⟩).2.status = 400 ∧
    (node_post (fun v => v) 2 ⟨[⟨1, none, none⟩], []⟩
        ⟨none, none⟩).1.nodes = [⟨1, none, none⟩] := by
  refine ⟨rfl, ?_, ?_⟩ <;> decide

/-- C8 (amended): a node POST whose name sanitizes to absent is rejected
400 exactly when some stored node also has an absent name (the duplicate
check matches NULL names); when every stored node has a name, the request
is not answered 400. -/
theorem C8_absent_name_duplicate_check :
    ∀ (clean : String → String) (fid : Int) (db : DBState) (body : NodeBody),
    sanitizeField clean body.name = .ok none →
    (∃ c, sanitizeField clean body.color = .ok c) →
    ((∃ m ∈ db.nodes, m.name = none) →
      (node_post clean fid db body).1 = db ∧
      (node_post clean fid db body).2.status = 400) ∧
    ((∀ m ∈ db.nodes, m.name ≠ none) →
      (node_post clean fid db body).2.status ≠ 400) := by
  intro clean fid db body hname hcolor
  constructor
  · intro hdup
    exact node_post_dup hname hcolor hdup
  · intro hnonull
    obtain ⟨c, hc⟩ := hcolor
    unfold node_post
    rw [hname]
    dsimp only
    rw [hc]
    dsimp only
    have hf : db.nodes.find? (fun m => decide (m.name = none)) = none := by
      rw [List.find?_eq_none]
      intro m hm
      simpa using hnonull m hm
    rw [hf]
    dsimp only
    split
    · intro h
      simp at h
    · intro h
      simp [exceptionResp] at h

/-- C10: the create branch of node PUT has no application-layer duplicate
name check: with a sanitized name already used by a stored node, the
UNIQUE constraint aborts the INSERT and the handler answers 501 (not the
400 that POST answers for the same body), and no node is created. -/
theorem C10_node_put_create_duplicate_name :
    ∀ (clean : String → String) (fid : Int) (db : DBState) (idv : Int)
      (body : NodeBody) (s : String),
    db.nodes.find? (fun m => decide (m.id = idv)) = none →
    sanitizeField clean body.name = .ok (some s) →
    (∃ c, sanitizeField clean body.color = .ok c) →
    (∃ m ∈ db.nodes, m.name = some s) →
    (node_put clean db idv body).1 = db ∧
    (node_put clean db idv body).2.status = 501 ∧
    (node_post clean fid db body).2.status = 400 := by
  intro clean fid db idv body s hfind hname hcolor hdup
  obtain ⟨c, hc⟩ := hcolor
  have hins : insertNode db ⟨idv, some s, c⟩ = none := by
    unfold insertNode
    rw [if_neg]
    intro hok
    obtain ⟨m, hm, hnm⟩ := hdup
    rcases hok.2.2.2 with h | h
    · exact Option.noConfusion h
    · exact absurd hnm (h m hm)
  have hres : node_put clean db idv body = (db, exceptionResp) := by
    unfold node_put
    rw [hfind]
    dsimp only
    rw [hname]
    dsimp only
    rw [hc]
    dsimp only
    rw [hins]
  rw [hres]
  exact ⟨rfl, rfl, (node_post_dup hname ⟨c, hc⟩ hdup).2⟩

/-- Witness for C1_node_put_upsert: PUT to existing id 1 updates (200),
PUT to fresh id 2 creates that id (201). -/
theorem C1_node_put_upsert_witness :
    ((dbA.nodes.find? (fun m => decide (m.id = 1))).isSome ∧
     (node_put idClean dbA 1 ⟨some (.s "b"), none⟩).2.status ≠ 501 ∧
     (node_put idClean dbA 1 ⟨some (.s "b"), none⟩).2.status = 200 ∧
     (node_put idClean dbA 1 ⟨some (.s "b"), none⟩).2.body =
       get_graph (node_put idClean dbA 1 ⟨some (.s "b"), none⟩).1) ∧
    (dbA.nodes.find? (fun m => decide (m.id = 2)) = none ∧
     (node_put idClean dbA 2 ⟨some (.s "b"), none⟩).2.status ≠ 501 ∧
     (node_put idClean dbA 2 ⟨some (.s "b"), none⟩).2.status = 201 ∧
     (node_put idClean dbA 2 ⟨some (.s "b"), none⟩).2.body =
       get_graph (node_put idClean dbA 2 ⟨some (.s "b"), none⟩).1 ∧
     ∃ m ∈ (node_put idClean dbA 2 ⟨some (.s "b"), none⟩).1.nodes, m.id = 2) := by
  constructor
  · refine ⟨by decide, by decide, ?_⟩
    exact (C1_node_put_upsert idClean dbA 1 ⟨some (.s "b"), none⟩).1
      (by decide) (by decide)
  · refine ⟨by decide, by decide, ?_⟩
    exact (C1_node_put_upsert idClean dbA 2 ⟨some (.s "b"), none⟩).2
      (by decide) (by decide)

/-- Witness for C2_put_preserves_omitted_fields: a node PUT omitting the
color keeps the stored color; an edge PUT omitting sid, tid and color
keeps all three. -/
theorem C2_put_preserves_omitted_fields_witness :
    (dbE.nodes.find? (fun m => decide (m.id = 1)) = some ⟨1, none, none⟩) ∧
    (dbE.edges.find? (fun f => decide (f.id = 1)) = some ⟨1, 1, 2, none, none⟩) ∧
    (∃ n2, (node_put idClean dbE 1 ⟨some (.s "nm"), none⟩).1.nodes.find?
        (fun m => decide (m.id = 1)) = some n2 ∧
      ((⟨some (.s "nm"), none⟩ : NodeBody).name = none → n2.name = none) ∧
      ((⟨some (.s "nm"), none⟩ : NodeBody).color = none → n2.color = none)) ∧
    (∃ e2, (edge_put idClean dbE 1 ⟨none, none, some (.s "en"), none⟩).1.edges.find?
        (fun f => decide (f.id = 1)) = some e2 ∧
      ((⟨none, none, some (.s "en"), none⟩ : EdgeBody).sid = none → e2.sid = 1) ∧
      ((⟨none, none, some (.s "en"), none⟩ : EdgeBody).tid = none → e2.tid = 2) ∧
      ((⟨none, none, some (.s "en"), none⟩ : EdgeBody).name = none → e2.name = none) ∧
      ((⟨none, none, some (.s "en"), none⟩ : EdgeBody).color = none → e2.color = none)) := by
  refine ⟨by decide, by decide, ?_, ?_⟩
  · exact (C2_put_preserves_omitted_fields idClean dbE 1
      ⟨some (.s "nm"), none⟩ ⟨none, none, some (.s "en"), none⟩
      ⟨1, none, none⟩ ⟨1, 1, 2, none, none⟩).1 (by decide)
  · exact (C2_put_preserves_omitted_fields idClean dbE 1
      ⟨some (.s "nm"), none⟩ ⟨none, none, some (.s "en"), none⟩
      ⟨1, none, none⟩ ⟨1, 1, 2, none, none⟩).2 (by decide)

/-- Witness for C3_delete_cascades: deleting node 1 of the fixture also
removes the edge 1 → 2 and keeps node 2. -/
theorem C3_delete_cascades_witness :
    (dbE.nodes.find? (fun m => decide (m.id = 1))).isSome ∧
    ((node_delete dbE 1).2.status = 200 ∧
     (∀ m ∈ (node_delete dbE 1).1.nodes, m.id ≠ 1) ∧
     (∀ e ∈ (node_delete dbE 1).1.edges, e.sid ≠ 1 ∧ e.tid ≠ 1) ∧
     (∀ m ∈ dbE.nodes, m.id ≠ 1 → m ∈ (node_delete dbE 1).1.nodes) ∧
     (∀ e ∈ dbE.edges, e.sid ≠ 1 → e.tid ≠ 1 → e ∈ (node_delete dbE 1).1.edges) ∧
     (∀ m ∈ (node_delete dbE 1).1.nodes, m ∈ dbE.nodes) ∧
     (∀ e ∈ (node_delete dbE 1).1.edges, e ∈ dbE.edges)) :=
  ⟨by decide, C3_delete_cascades dbE 1 (by decide)⟩

/-- Witness for C4_duplicate_name_conflict: POST of the already stored
name a is rejected 400 and the nodes are unchanged. -/
theorem C4_duplicate_name_conflict_witness :
    sanitizeField idClean (⟨some (.s "a"), none⟩ : NodeBody).name =
      Except.ok (some "a") ∧
    (∃ m ∈ dbA.nodes, m.name = some "a") ∧
    ((node_post idClean 5 dbA ⟨some (.s "a"), none⟩).1 = dbA ∧
     (node_post idClean 5 dbA ⟨some (.s "a"), none⟩).2.status = 400) := by
  refine ⟨rfl, by decide, ?_⟩
  exact C4_duplicate_name_conflict idClean 5 dbA ⟨some (.s "a"), none⟩
    (some "a") rfl ⟨none, rfl⟩ (by decide)

/-- Witness for C5_no_self_loops: a POST and a PUT creation of the
self-loop 3 → 3 are both rejected with 501 and leave the fixture
unchanged, and the invariant is preserved by all handlers there. -/
theorem C5_no_self_loops_witness :
    (dbE.edges.find? (fun f => decide (f.id = 5)) = none) ∧ edgesOk dbE ∧
    edge_post idClean 9 dbE ⟨some (.i 3), some (.i 3), none, none⟩ =
      (dbE, exceptionResp) ∧
    edge_put idClean dbE 5 ⟨some (.i 3), some (.i 3), none, none⟩ =
      (dbE, exceptionResp) ∧
    (edgesOk (node_post idClean 9 dbE ⟨none, none⟩).1 ∧
     edgesOk (node_put idClean dbE 5 ⟨none, none⟩).1 ∧
     edgesOk (node_delete dbE 5).1 ∧
     edgesOk (edge_post idClean 9 dbE ⟨some (.i 3), some (.i 3), none, none⟩).1 ∧
     edgesOk (edge_put idClean dbE 5 ⟨some (.i 3), some (.i 3), none, none⟩).1 ∧
     edgesOk (edge_delete dbE 5).1) := by
  refine ⟨by decide, by decide, ?_, ?_, ?_⟩
  · exact (C5_no_self_loops idClean 9 dbE 5 ⟨none, none⟩
      ⟨some (.i 3), some (.i 3), none, none⟩ 3).1 rfl rfl
  · exact (C5_no_self_loops idClean 9 dbE 5 ⟨none, none⟩
      ⟨some (.i 3), some (.i 3), none, none⟩ 3).2.1 rfl rfl (by decide)
  · exact (C5_no_self_loops idClean 9 dbE 5 ⟨none, none⟩
      ⟨some (.i 3), some (.i 3), none, none⟩ 3).2.2 (by decide)

/-- Witness for C6_edge_put_create: with a string sid the create branch
answers 400; with integer sid 2 and tid 1 it creates edge 7 with exactly
those endpoints and answers 201. -/
theorem C6_edge_put_create_witness :
    (dbE.edges.find? (fun f => decide (f.id = 7)) = none) ∧
    edge_put idClean dbE 7 ⟨some (.s "x"), some (.i 1), none, none⟩ =
      (dbE, ⟨.text "Sorry, the sid and tid params must be integers.", 400⟩) ∧
    ((edge_put idClean dbE 7 ⟨some (.i 2), some (.i 1), none, none⟩).2.status = 201 ∧
     ∃ e2 ∈ (edge_put idClean dbE 7 ⟨some (.i 2), some (.i 1), none, none⟩).1.edges,
       e2.id = 7 ∧ e2.sid = 2 ∧ e2.tid = 1) := by
  refine ⟨by decide, ?_, ?_⟩
  · exact (C6_edge_put_create idClean dbE 7
      ⟨some (.s "x"), some (.i 1), none, none⟩ (by decide)).1 (Or.inl rfl)
  · exact ((C6_edge_put_create idClean dbE 7
      ⟨some (.i 2), some (.i 1), none, none⟩ (by decide)).2 2 1 rfl rfl).2 (by decide)

/-- Witness for C7_edge_put_update: updating edge 1 with a string sid is
silently ignored — the response is 200 and the stored endpoints stay
1 → 2. -/
theorem C7_edge_put_update_witness :
    (dbE.edges.find? (fun f => decide (f.id = 1)) = some ⟨1, 1, 2, none, none⟩) ∧
    (edge_put idClean dbE 1 ⟨some (.s "zz"), none, none, none⟩).2.status = 200 ∧
    (∃ e2, (edge_put idClean dbE 1 ⟨some (.s "zz"), none, none, none⟩).1.edges.find?
        (fun f => decide (f.id = 1)) = some e2 ∧
      e2.sid = 1 ∧ e2.tid = 2) := by
  refine ⟨by decide, by decide, ?_⟩
  exact (C7_edge_put_update idClean dbE 1 ⟨some (.s "zz"), none, none, none⟩
    ⟨1, 1, 2, none, none⟩ (by decide)).1 (by decide)

/-- Witness for C8_absent_name_duplicate_check: a nameless POST is
rejected 400 when a NULL-named node exists (dbN) and is not rejected 400
when every node is named (dbA). -/
theorem C8_absent_name_duplicate_check_witness :
    sanitizeField idClean (⟨none, none⟩ : NodeBody).name = Except.ok none ∧
    (∃ m ∈ dbN.nodes, m.name = none) ∧
    ((node_post idClean 2 dbN ⟨none, none⟩).1 = dbN ∧
     (node_post idClean 2 dbN ⟨none, none⟩).2.status = 400) ∧
    (node_post idClean 2 dbA ⟨none, none⟩).2.status ≠ 400 := by
  refine ⟨rfl, by decide, ?_, ?_⟩
  · exact (C8_absent_name_duplicate_check idClean 2 dbN ⟨none, none⟩
      rfl ⟨none, rfl⟩).1 (by decide)
  · exact (C8_absent_name_duplicate_check idClean 2 dbA ⟨none, none⟩
      rfl ⟨none, rfl⟩).2 (by decide)

/-- Witness for C10_node_put_create_duplicate_name: PUT of name a to the
fresh id 2 answers 501 leaving the store unchanged, while POST with the
same body answers 400. -/
theorem C10_node_put_create_duplicate_name_witness :
    (dbA.nodes.find? (fun m => decide (m.id = 2)) = none) ∧
    (∃ m ∈ dbA.nodes, m.name = some "a") ∧
    ((node_put idClean dbA 2 ⟨some (.s "a"), none⟩).1 = dbA ∧
     (node_put idClean dbA 2 ⟨some (.s "a"), none⟩).2.status = 501 ∧
     (node_post idClean 9 dbA ⟨some (.s "a"), none⟩).2.status = 400) := by
  refine ⟨by decide, by decide, ?_⟩
  exact C10_node_put_create_duplicate_name idClean 9 dbA 2
    ⟨some (.s "a"), none⟩ "a" (by decide) rfl ⟨none, rfl⟩ (by decide)


end GraphExplorer
